import Mathlib

/-!
Formal model of the ROV control-system core, shallowly embedded from the C++
sources: the safety interlock engine (include/safety.hpp), the actuators
(include/actuators.hpp), the pressure sensor with its moving-average filter
(include/sensors.hpp), the ECU watchdog state machine (include/ecu.hpp), the
ECU supervisor (include/ecu_mangr.hpp) and the telemetry-snapshot sensor reads
(include/controlSystem.hpp).

Modelling conventions:
* C++ `double` values are modelled as `ℚ`; all comparisons and arithmetic the
  claims depend on are exact at the inputs used.
* `std::chrono` time points are modelled as rational numbers of seconds;
  `duration_cast<seconds>` truncates toward zero, modelled by `ratTrunc`.
* The safety limits' bound accessors (`std::function<double()>` closures over
  live value sources) are modelled as functions `ℕ → ℚ` of the evaluation
  cycle: `getValue t` is the value the accessor yields when called in cycle
  `t`.  A separate variant with accessors `ℕ → Option ℚ` models an accessor
  that can fail (throw), with `Except.error` standing for the C++ exception
  propagating out of `SafetyMonitor::update`.
* Logging, `std::cout` and file output are pure side channels with no effect
  on the modelled state and are omitted.
-/

/-- `std::clamp(v, lo, hi)`: `lo` if `v < lo`, else `hi` if `hi < v`, else `v`. -/
def stdClamp (v lo hi : ℚ) : ℚ :=
  if v < lo then lo else if hi < v then hi else v

/-- Truncation toward zero, as performed by
`std::chrono::duration_cast<std::chrono::seconds>` on a rational number of
seconds. -/
def ratTrunc (x : ℚ) : ℤ :=
  if 0 ≤ x then ⌊x⌋ else -⌊-x⌋

/-- Fixed six-decimal rendering of a rational, modelling `std::to_string` on a
`double` (`%f` formatting, six digits after the point). -/
def toStdString (q : ℚ) : String :=
  let s : ℤ := round (|q| * 1000000)
  let ip : ℤ := s / 1000000
  let fp : ℤ := s % 1000000
  (if q < 0 then "-" else "") ++ toString ip ++ "." ++ (toString (1000000 + fp)).drop 1

/-! ## Actuators (include/actuators.hpp) -/

/-- `MotorController` state: name, commanded value, feedback value, command
limits, interlock flag and enabled flag (constructor: command 0, feedback 0,
not interlocked, **not enabled**). -/
structure MotorController where
  name : String
  commandValue : ℚ
  feedbackValue : ℚ
  minLimit : ℚ
  maxLimit : ℚ
  interlockActive : Bool
  enabled : Bool
deriving DecidableEq

/-- `MotorController::MotorController(name, minLim, maxLim)`. -/
def mkMotorController (name : String) (minLim maxLim : ℚ) : MotorController :=
  ⟨name, 0, 0, minLim, maxLim, false, false⟩

/-- `ThrusterMotor(name)`: a `MotorController` with limits `[-100, 100]`. -/
def mkThrusterMotor (name : String) : MotorController :=
  mkMotorController name (-100) 100

namespace MotorController

/-- `MotorController::initialize`: enables the motor and zeroes the command. -/
def init (m : MotorController) : Bool × MotorController :=
  (true, { m with enabled := true, commandValue := 0 })

/-- `MotorController::setCommand(value)`: rejected (returning `false`, state
unchanged) when not enabled or interlocked; otherwise the command becomes
`std::clamp(value, minLimit_, maxLimit_)`. -/
def setCommand (value : ℚ) (m : MotorController) : Bool × MotorController :=
  if !m.enabled || m.interlockActive then (false, m)
  else (true, { m with commandValue := stdClamp value m.minLimit m.maxLimit })

/-- `MotorController::update`: zeroes the command when disabled or
interlocked. -/
def update (m : MotorController) : Bool × MotorController :=
  if !m.enabled || m.interlockActive then (false, { m with commandValue := 0 })
  else (true, m)

/-- `MotorController::shutdown`. -/
def shutdown (m : MotorController) : Bool × MotorController :=
  (true, { m with commandValue := 0, enabled := false })

end MotorController

/-- `HydraulicValve` state (constructor: position 0, target 0, not
interlocked; there is no enabled flag). -/
structure HydraulicValve where
  name : String
  position : ℚ
  targetPosition : ℚ
  interlockActive : Bool
deriving DecidableEq

/-- `HydraulicValve::HydraulicValve(name)`. -/
def mkHydraulicValve (name : String) : HydraulicValve :=
  ⟨name, 0, 0, false⟩

namespace HydraulicValve

/-- `HydraulicValve::setCommand(value)`: rejected when interlocked; otherwise
the target position becomes `std::clamp(value, 0.0, 100.0)`. -/
def setCommand (value : ℚ) (h : HydraulicValve) : Bool × HydraulicValve :=
  if h.interlockActive then (false, h)
  else (true, { h with targetPosition := stdClamp value 0 100 })

/-- `HydraulicValve::update`: zero the target when interlocked, else move the
position toward the target by at most 5 per update. -/
def update (h : HydraulicValve) : Bool × HydraulicValve :=
  if h.interlockActive then (false, { h with targetPosition := 0 })
  else (true, { h with position := h.position + stdClamp (h.targetPosition - h.position) (-5) 5 })

end HydraulicValve

/-- A registered `IActuator`: dynamically either a `MotorController` (or its
subclass `ThrusterMotor`) or a `HydraulicValve`. -/
inductive IActuatorState where
  | motor (m : MotorController)
  | valve (h : HydraulicValve)
deriving DecidableEq

namespace IActuatorState

/-- Virtual dispatch of `setCommand(value)`. -/
def setCommand (value : ℚ) : IActuatorState → Bool × IActuatorState
  | motor m => let r := m.setCommand value; (r.1, motor r.2)
  | valve h => let r := h.setCommand value; (r.1, valve r.2)

/-- Virtual dispatch of `getCommand()` (`commandValue_` for motors,
`targetPosition_` for valves). -/
def getCommand : IActuatorState → ℚ
  | motor m => m.commandValue
  | valve h => h.targetPosition

/-- Virtual dispatch of `hasInterlock()`. -/
def hasInterlock : IActuatorState → Bool
  | motor m => m.interlockActive
  | valve h => h.interlockActive

/-- The lower command limit: the motor's `minLimit_`, or 0 for a valve. -/
def minOf : IActuatorState → ℚ
  | motor m => m.minLimit
  | valve _ => 0

/-- The upper command limit: the motor's `maxLimit_`, or 100 for a valve. -/
def maxOf : IActuatorState → ℚ
  | motor m => m.maxLimit
  | valve _ => 100

/-- Whether `setCommand` is accepted apart from the interlock: motors must
also be enabled, valves always accept. -/
def enabledOf : IActuatorState → Bool
  | motor m => m.enabled
  | valve _ => true

end IActuatorState

/-! ## Sensors (include/sensors.hpp) -/

/-- `PressureSensor` state (constructor: value 0, offset 0, unhealthy, empty
history buffer). `BUFFER_SIZE = 10`. -/
structure PressureSensor where
  name : String
  currentValue : ℚ
  calibrationOffset : ℚ
  healthy : Bool
  historyBuffer : List ℚ
deriving DecidableEq

/-- `PressureSensor::PressureSensor(name)`. -/
def mkPressureSensor (name : String) : PressureSensor :=
  ⟨name, 0, 0, false, []⟩

/-- One step of the history buffer: `pop_front` when the buffer already holds
`BUFFER_SIZE = 10` samples, then `push_back` the new sample. -/
def nextBuffer (v : ℚ) (buf : List ℚ) : List ℚ :=
  (if 10 ≤ buf.length then buf.tail else buf) ++ [v]

namespace PressureSensor

/-- `PressureSensor::readValue`: append `currentValue_ + calibrationOffset_`
to the history buffer (dropping the oldest sample once the buffer holds 10)
and return the arithmetic mean of the buffer. -/
def readValue (s : PressureSensor) : ℚ × PressureSensor :=
  let buf := nextBuffer (s.currentValue + s.calibrationOffset) s.historyBuffer
  (buf.sum / (buf.length : ℚ), { s with historyBuffer := buf })

/-- `PressureSensor::initialize`. -/
def init (s : PressureSensor) : Bool × PressureSensor :=
  (true, { s with healthy := true })

/-- State after `n` consecutive `readValue` calls. -/
def readRepeat : ℕ → PressureSensor → PressureSensor
  | 0, s => s
  | n + 1, s => readRepeat n (s.readValue).2

end PressureSensor

/-- The history buffer after `n` consecutive `readValue` calls appending the
same sample `v`. -/
def iterBuffer (v : ℚ) : ℕ → List ℚ → List ℚ
  | 0, b => b
  | n + 1, b => iterBuffer v n (nextBuffer v b)

/-- Step 1 of the control loop tick (`TM_ControlSystem::controlLoop`): the
sensor's `update()` (a hardware placeholder leaving the modelled state
unchanged) followed by `readValue()`; the returned value is the one obtained
during this tick's sensor-update step. -/
def controlLoopSensorRead (s : PressureSensor) : ℚ × PressureSensor :=
  s.readValue

/-- The sensor value recorded by `TM_ControlSystem::writeTelemetrySnapshot`:
the snapshot step calls `sensor->readValue()` afresh rather than reusing the
value read in step 1 of the same tick. -/
def telemetrySnapshotSensorRead (s : PressureSensor) : ℚ × PressureSensor :=
  s.readValue

/-! ## Safety interlock engine (include/safety.hpp) -/

/-- `SafetyLimit`: a named range check.  `getValue` is the bound accessor,
modelled as a function of the evaluation cycle. -/
structure SafetyLimit where
  name : String
  getValue : ℕ → ℚ
  minValue : ℚ
  maxValue : ℚ
  isActive : Bool

/-- `SafetyMonitor` state (constructor: no limits, no actuators,
`systemSafe_ = true`, `lastViolation_` default-constructed empty). -/
structure SafetyMonitor where
  limits : List SafetyLimit
  controlledActuators : List IActuatorState
  systemSafe : Bool
  lastViolation : String

/-- `SafetyMonitor::SafetyMonitor()`. -/
def mkSafetyMonitor : SafetyMonitor :=
  ⟨[], [], true, ""⟩

/-- The violation message recorded by `SafetyMonitor::update`:
`limit.name + " out of range: " + std::to_string(value)`. -/
def violationMessage (name : String) (value : ℚ) : String :=
  name ++ " out of range: " ++ toStdString value

/-- `setCommand(0.0)` issued to every registered actuator (the interlock
response inside `SafetyMonitor::update`). -/
def zeroAll (acts : List IActuatorState) : List IActuatorState :=
  acts.map (fun a => (IActuatorState.setCommand 0 a).2)

/-- The intermediate result of the limit-evaluation loop. -/
structure EvalResult where
  limits : List SafetyLimit
  safe : Bool
  violation : Option String
  actuators : List IActuatorState

/-- The `for` loop of `SafetyMonitor::update` in cycle `t`: walk the limits in
registration order; at the first violated limit set its `isActive`, record the
violation, zero every actuator and `break` (later limits untouched); an
in-range limit has `isActive` cleared and the walk continues. -/
def evalLimits (t : ℕ) (acts : List IActuatorState) : List SafetyLimit → EvalResult
  | [] => ⟨[], true, none, acts⟩
  | l :: rest =>
    if l.getValue t < l.minValue ∨ l.maxValue < l.getValue t then
      ⟨{ l with isActive := true } :: rest, false,
        some (violationMessage l.name (l.getValue t)), zeroAll acts⟩
    else
      let r := evalLimits t acts rest
      ⟨{ l with isActive := false } :: r.limits, r.safe, r.violation, r.actuators⟩

namespace SafetyMonitor

/-- `SafetyMonitor::update` in cycle `t`: `systemSafe_` is first set `true`,
then the limit loop runs; `lastViolation_` is overwritten only when a
violation is found. -/
def update (t : ℕ) (m : SafetyMonitor) : SafetyMonitor :=
  let r := evalLimits t m.controlledActuators m.limits
  { m with
    limits := r.limits
    systemSafe := r.safe
    lastViolation := r.violation.getD m.lastViolation
    controlledActuators := r.actuators }

/-- `SafetyMonitor::addLimit(name, getValue, minVal, maxVal)`: unconditionally
appends `{name, getValue, minVal, maxVal, false}` to the registered limits. -/
def addLimit (name : String) (getValue : ℕ → ℚ) (minVal maxVal : ℚ)
    (m : SafetyMonitor) : SafetyMonitor :=
  { m with limits := m.limits ++ [⟨name, getValue, minVal, maxVal, false⟩] }

/-- `SafetyMonitor::addActuator(actuator)`. -/
def addActuator (a : IActuatorState) (m : SafetyMonitor) : SafetyMonitor :=
  { m with controlledActuators := m.controlledActuators ++ [a] }

/-- `SafetyMonitor::isSystemSafe()`. -/
def isSystemSafe (m : SafetyMonitor) : Bool := m.systemSafe

/-- `SafetyMonitor::getLastViolation()`. -/
def getLastViolation (m : SafetyMonitor) : String := m.lastViolation

end SafetyMonitor

/-- A limit is violated in cycle `t` when its sampled value is strictly below
`minValue` or strictly above `maxValue` (the condition of
`SafetyMonitor::update`). -/
def SafetyLimit.violated (t : ℕ) (l : SafetyLimit) : Prop :=
  l.getValue t < l.minValue ∨ l.maxValue < l.getValue t

instance (t : ℕ) (l : SafetyLimit) : Decidable (l.violated t) := by
  unfold SafetyLimit.violated; infer_instance

/-- A limit with its `isActive` flag overwritten. -/
def SafetyLimit.setActive (b : Bool) (l : SafetyLimit) : SafetyLimit :=
  { l with isActive := b }

/-! ### Accessor-failure variant of the safety engine

The C++ accessor is a `std::function<double()>`; the only way it can "fail"
is by throwing, and `SafetyMonitor::update` contains no handler, so the
exception propagates out of `update`.  `getValue t = none` models the accessor
failing in cycle `t`, and `Except.error` carries the monitor state at the
moment the exception escapes `update`. -/

/-- A safety limit whose bound accessor may fail. -/
structure SafetyLimitE where
  name : String
  getValue : ℕ → Option ℚ
  minValue : ℚ
  maxValue : ℚ
  isActive : Bool

/-- Safety-monitor state over fallible limits. -/
structure SafetyMonitorE where
  limits : List SafetyLimitE
  controlledActuators : List IActuatorState
  systemSafe : Bool
  lastViolation : String

/-- The intermediate result of the limit loop over fallible limits. -/
structure EvalResultE where
  limits : List SafetyLimitE
  safe : Bool
  violation : Option String
  actuators : List IActuatorState

/-- The limit loop of `SafetyMonitor::update` when an accessor may fail:
a failing accessor aborts the loop at that limit, leaving it and all later
limits untouched (`Except.error` returns the limits as they stand). -/
def evalLimitsE (t : ℕ) (acts : List IActuatorState) :
    List SafetyLimitE → Except (List SafetyLimitE) EvalResultE
  | [] => .ok ⟨[], true, none, acts⟩
  | l :: rest =>
    match l.getValue t with
    | none => .error (l :: rest)
    | some value =>
      if value < l.minValue ∨ l.maxValue < value then
        .ok ⟨{ l with isActive := true } :: rest, false,
          some (l.name ++ " out of range: " ++ toStdString value), zeroAll acts⟩
      else
        match evalLimitsE t acts rest with
        | .ok r => .ok ⟨{ l with isActive := false } :: r.limits, r.safe, r.violation, r.actuators⟩
        | .error rest' => .error ({ l with isActive := false } :: rest')

/-- `SafetyMonitor::update` over fallible limits.  `systemSafe_ = true` is
assigned before the loop, so when an accessor failure escapes, the monitor is
left *marked safe*, with `lastViolation_` and every actuator untouched. -/
def SafetyMonitorE.update (t : ℕ) (m : SafetyMonitorE) :
    Except SafetyMonitorE SafetyMonitorE :=
  match evalLimitsE t m.controlledActuators m.limits with
  | .ok r =>
    .ok { m with
      limits := r.limits
      systemSafe := r.safe
      lastViolation := r.violation.getD m.lastViolation
      controlledActuators := r.actuators }
  | .error ls => .error { m with systemSafe := true, limits := ls }

/-! ## ECU health model (include/ecu.hpp) -/

/-- `ECUType`. -/
inductive ECUType where
  | MAIN_CONTROLLER
  | SENSOR_NODE
  | ACTUATOR_NODE
  | VFD_CONTROLLER
  | HYDRAULIC_CONTROLLER
  | CUSTOM
deriving DecidableEq

/-- `ECUStatus`. -/
inductive ECUStatus where
  | OFFLINE
  | INITIALIZING
  | ONLINE
  | FAULT
  | DEGRADED
deriving DecidableEq

/-- `ECULocation`. -/
structure ECULocation where
  compartment : String
  mounting : String
  x_position : ℚ
  y_position : ℚ
  z_position : ℚ
deriving DecidableEq

/-- `ControlledDevice`. -/
structure ControlledDevice where
  deviceName : String
  deviceType : String
  interface : String
  channelNumber : ℤ
deriving DecidableEq

/-- `CommunicationInfo`. -/
structure CommunicationInfo where
  protocol : String
  address : String
  baudRate : ℤ
  modbusAddress : ℤ
  updateRateHz : ℚ
deriving DecidableEq

/-- `ECU` state.  Timestamps are rational seconds. -/
structure ECU where
  ecuID : String
  name : String
  type : ECUType
  status : ECUStatus
  location : ECULocation
  commInfo : CommunicationInfo
  controlledDevices : List ControlledDevice
  lastCommunication : ℚ
  cpuUsagePercent : ℚ
  memoryUsagePercent : ℚ
  temperatureCelsius : ℚ
  communicationErrors : ℕ
  watchdogActive : Bool
deriving DecidableEq

/-- `ECU::ECU(ecuID, name, type)` constructed at time `now` (the constructor
stamps `lastCommunication_ = system_clock::now()`); status starts `OFFLINE`. -/
def mkECU (ecuID name : String) (type : ECUType) (now : ℚ) : ECU :=
  { ecuID := ecuID, name := name, type := type, status := .OFFLINE
    location := ⟨"", "", 0, 0, 0⟩
    commInfo := ⟨"", "", 0, 0, 0⟩
    controlledDevices := []
    lastCommunication := now
    cpuUsagePercent := 0, memoryUsagePercent := 0, temperatureCelsius := 0
    communicationErrors := 0, watchdogActive := false }

namespace ECU

/-- `ECU::initialize`: `INITIALIZING`, error counter reset, then
`establishCommunication()` (the placeholder always returns `true`), so the
status becomes `ONLINE` and the watchdog is armed. -/
def init (e : ECU) : Bool × ECU :=
  (true, { e with status := .ONLINE, communicationErrors := 0, watchdogActive := true })

/-- `ECU::updateHealthMetrics` (placeholder values from the source). -/
def updateHealthMetrics (e : ECU) : ECU :=
  { e with cpuUsagePercent := 25, memoryUsagePercent := 40, temperatureCelsius := 45 }

/-- `ECU::update` at time `now`: `elapsed` is `now - lastCommunication_`
truncated to whole seconds by `duration_cast<seconds>`; when `elapsed > 5` and
the status is `ONLINE`, the status becomes `DEGRADED` and the communication
error counter is incremented; the health metrics are then refreshed; returns
whether the status is `ONLINE` or `DEGRADED`. -/
def update (now : ℚ) (e : ECU) : Bool × ECU :=
  let elapsed := ratTrunc (now - e.lastCommunication)
  let e1 :=
    if 5 < elapsed ∧ e.status = .ONLINE then
      { e with status := .DEGRADED, communicationErrors := e.communicationErrors + 1 }
    else e
  let e2 := updateHealthMetrics e1
  (decide (e2.status = .ONLINE ∨ e2.status = .DEGRADED), e2)

/-- `ECU::shutdown`. -/
def shutdown (e : ECU) : Bool × ECU :=
  (true, { e with status := .OFFLINE, watchdogActive := false })

/-- `ECU::updateCommunicationTimestamp` observed at time `now`:
`lastCommunication_ = now`; a `DEGRADED` ECU transitions back to `ONLINE`. -/
def updateCommunicationTimestamp (now : ℚ) (e : ECU) : ECU :=
  let e1 := { e with lastCommunication := now }
  if e1.status = .DEGRADED then { e1 with status := .ONLINE } else e1

end ECU

/-! ## ECU supervisor (include/ecu_mangr.hpp)

`std::map<std::string, std::shared_ptr<ECU>>` is modelled as an association
list with `operator[]`-style insert-or-replace; the map's key ordering plays
no role in the properties stated here.  The logger only emits text and is
omitted. -/

/-- `ECUManager` state (constructor: empty collection,
`allECUsOnline_ = false`). -/
structure ECUManager where
  ecus : List (String × ECU)
  allECUsOnline : Bool
  systemName : String
deriving DecidableEq

/-- `ECUManager::ECUManager(systemName, logger)`. -/
def mkECUManager (systemName : String) : ECUManager :=
  ⟨[], false, systemName⟩

/-- `ecus_[key] = ecu`: replace the mapped ECU when the key is present,
otherwise insert a new entry. -/
def insertAssoc (k : String) (v : ECU) : List (String × ECU) → List (String × ECU)
  | [] => [(k, v)]
  | (k', v') :: rest =>
    if k' = k then (k, v) :: rest else (k', v') :: insertAssoc k v rest

namespace ECUManager

/-- `ECUManager::updateSystemStatus`: `allECUsOnline_` becomes the conjunction
over all members of `status == ONLINE` (the loop starts from `true` and
breaks to `false` at the first non-online member). -/
def updateSystemStatus (m : ECUManager) : ECUManager :=
  { m with allECUsOnline := m.ecus.all (fun p => decide (p.2.status = .ONLINE)) }

/-- `ECUManager::addECU(ecu)`: `ecus_[ecu->getECUID()] = ecu` — no duplicate
check, no recomputation of the aggregate status. -/
def addECU (e : ECU) (m : ECUManager) : ECUManager :=
  { m with ecus := insertAssoc e.ecuID e m.ecus }

/-- `ECUManager::getECU(ecuID)`. -/
def getECU (ecuID : String) (m : ECUManager) : Option ECU :=
  (m.ecus.find? (fun p => decide (p.1 = ecuID))).map Prod.snd

/-- `ECUManager::initialize`: initialize every member (no early exit), then
recompute the aggregate status; overall success only if all succeeded. -/
def init (m : ECUManager) : Bool × ECUManager :=
  let results := m.ecus.map (fun p => (p.1, ECU.init p.2))
  let m' := updateSystemStatus { m with ecus := results.map (fun p => (p.1, p.2.2)) }
  (results.all (fun p => p.2.1), m')

/-- `ECUManager::update` at time `now`: tick every member, then recompute the
aggregate status; returns whether every member's `update` succeeded. -/
def update (now : ℚ) (m : ECUManager) : Bool × ECUManager :=
  let results := m.ecus.map (fun p => (p.1, ECU.update now p.2))
  let m' := updateSystemStatus { m with ecus := results.map (fun p => (p.1, p.2.2)) }
  (results.all (fun p => p.2.1), m')

/-- `ECUManager::shutdown`: shut down every member, clear the aggregate
flag, always succeeds. -/
def shutdown (m : ECUManager) : Bool × ECUManager :=
  (true,
    { m with
      ecus := m.ecus.map (fun p => (p.1, (ECU.shutdown p.2).2))
      allECUsOnline := false })

/-- `ECUManager::areAllECUsOnline()`: returns the cached flag. -/
def areAllECUsOnline (m : ECUManager) : Bool := m.allECUsOnline

/-- `ECUManager::getOnlineECUCount()`. -/
def getOnlineECUCount (m : ECUManager) : ℕ :=
  (m.ecus.filter (fun p => decide (p.2.status = .ONLINE))).length

end ECUManager

/-! ## Concrete system states used in the theorems below -/

/-- `VerticalThruster1` right after `initialize()` (enabled, command 0). -/
def thrusterInit : MotorController :=
  (MotorController.init (mkThrusterMotor "VerticalThruster1")).2

/-- `ECU02` right after a successful `initialize()` at `t = 0`
(`ONLINE`, `lastCommunication = 0`). -/
def eC2 : ECU :=
  (ECU.init (mkECU "ECU02" "Teensy 4.0 Sensor Node" ECUType.SENSOR_NODE 0)).2

/-- A safety monitor holding one limit whose accessor fails every cycle and
one enabled thruster currently commanded to 50. -/
def mC4 : SafetyMonitorE :=
  ⟨[⟨"MaxDepth", fun _ => none, 0, 100, false⟩],
   [IActuatorState.motor { mkThrusterMotor "VerticalThruster1" with enabled := true, commandValue := 50 }],
   true, ""⟩

/-- Pressure sensor after `initialize()`. -/
def sC9a : PressureSensor := { mkPressureSensor "DepthSensor" with healthy := true }

/-- … after tick 1's sensor-update-step read (buffer `[0]`). -/
def sC9b : PressureSensor := (controlLoopSensorRead sC9a).2

/-- … after tick 1's telemetry-snapshot read (buffer `[0, 0]`). -/
def sC9c : PressureSensor := (telemetrySnapshotSensorRead sC9b).2

/-- … after the hardware raises the raw reading to 12 before tick 2. -/
def sC9d : PressureSensor := { sC9c with currentValue := 12 }

/-- First limit of the C1 witness monitor: in range at cycle 0, previously
violated (`isActive = true`). -/
def limW1 : SafetyLimit := ⟨"MaxDepth", fun _ => 50, 0, 100, true⟩

/-- Second limit of the C1 witness monitor: violated at cycle 0 (120 > 100). -/
def limW2 : SafetyLimit := ⟨"MaxTemp", fun _ => 120, 0, 100, false⟩

/-- Third limit of the C1 witness monitor: also out of range, but never
inspected in cycle 0; its previous `isActive = true` must survive. -/
def limW3 : SafetyLimit := ⟨"MaxPressure", fun _ => 200, 0, 100, true⟩

/-- An enabled thruster commanded to 30. -/
def actW1 : IActuatorState :=
  IActuatorState.motor { mkThrusterMotor "VerticalThruster1" with enabled := true, commandValue := 30 }

/-- A hydraulic valve with target position 70. -/
def actW2 : IActuatorState :=
  IActuatorState.valve { mkHydraulicValve "GripperValve" with targetPosition := 70 }

/-- The C1 witness monitor. -/
def mC1 : SafetyMonitor := ⟨[limW1, limW2, limW3], [actW1, actW2], true, ""⟩

/-- A monitor whose single limit reads 120 in cycle 0 (violated) and 50 from
cycle 1 on (in range). -/
def mC8 : SafetyMonitor :=
  SafetyMonitor.addLimit "MaxDepth" (fun t => if t = 0 then 120 else 50) 0 100 mkSafetyMonitor

/-- A monitor whose single limit is always in range. -/
def mW8 : SafetyMonitor :=
  SafetyMonitor.addLimit "MaxTemp" (fun _ => 20) (-5) 50 mkSafetyMonitor

/-- Two ECUs sharing the id `ECU01`. -/
def eAlpha : ECU := mkECU "ECU01" "Alpha" ECUType.MAIN_CONTROLLER 0

/-- Second ECU with the duplicate id. -/
def eBeta : ECU := mkECU "ECU01" "Beta" ECUType.SENSOR_NODE 0

/-- Supervisor after adding `eAlpha` and then `eBeta` (same id). -/
def mC6 : ECUManager :=
  ECUManager.addECU eBeta (ECUManager.addECU eAlpha (mkECUManager "TBM ROV Control System"))

/-- Supervisor with one ECU, after `initialize()` (member `ONLINE`, aggregate
flag `true`). -/
def mOn : ECUManager :=
  (ECUManager.init (ECUManager.addECU eAlpha (mkECUManager "TBM ROV Control System"))).2

/-- The same supervisor after `addECU` of a second, still-`OFFLINE` ECU: the
cached aggregate flag is not recomputed. -/
def mC7 : ECUManager :=
  ECUManager.addECU (mkECU "ECU02" "Teensy 4.0 Sensor Node" ECUType.SENSOR_NODE 0) mOn

/-- Fresh pressure sensor for the C10 witness (empty history buffer). -/
def sW10 : PressureSensor := mkPressureSensor "DepthSensor"

/-! ## Theorems -/

/-- C3 counterexample: a freshly constructed `ThrusterMotor` is not
interlocked (`interlockActive_ = false`) but also not yet enabled, so
`setCommand(50)` is rejected and `getCommand()` stays `0`, not
`clamp(50, -100, 100) = 50` as the claim requires. -/
theorem actuator_setCommand_clamp_fails_when_disabled :
    (IActuatorState.motor (mkThrusterMotor "VerticalThruster1")).hasInterlock = false
    ∧ ((IActuatorState.setCommand 50 (IActuatorState.motor (mkThrusterMotor "VerticalThruster1"))).2).getCommand = 0
    ∧ stdClamp 50 (-100) 100 = 50
    ∧ (0 : ℚ) ≠ 50 := by
  refine ⟨rfl, rfl, ?_, by norm_num⟩
  norm_num [stdClamp]

/-- C3 (amended): for every actuator and commanded input `v`, if the actuator
is not interlocked *and accepts commands* (a `MotorController` must
additionally be enabled; a `HydraulicValve` has no enabled flag), then after
`setCommand(v)` the result of `getCommand()` equals `clamp(v, min, max)` for
that actuator's limits (`[-100, 100]` for a `ThrusterMotor`, `[0, 100]` for a
`HydraulicValve`). -/
theorem actuator_setCommand_clamp_enabled (a : IActuatorState) (v : ℚ)
    (hIl : a.hasInterlock = false) (hEn : a.enabledOf = true) :
    ((IActuatorState.setCommand v a).2).getCommand = stdClamp v a.minOf a.maxOf := by
  cases a with
  | motor m =>
      simp only [IActuatorState.hasInterlock] at hIl
      simp only [IActuatorState.enabledOf] at hEn
      simp [IActuatorState.setCommand, MotorController.setCommand, hIl, hEn,
        IActuatorState.getCommand, IActuatorState.minOf, IActuatorState.maxOf]
  | valve h =>
      simp only [IActuatorState.hasInterlock] at hIl
      simp [IActuatorState.setCommand, HydraulicValve.setCommand, hIl,
        IActuatorState.getCommand, IActuatorState.minOf, IActuatorState.maxOf]

/-- Witness for C3 at `VerticalThruster1` after `initialize()` with
`setCommand(150)`: the command saturates at the upper limit 100. -/
theorem actuator_setCommand_clamp_enabled_witness :
    (IActuatorState.motor thrusterInit).hasInterlock = false
    ∧ (IActuatorState.motor thrusterInit).enabledOf = true
    ∧ ((IActuatorState.setCommand 150 (IActuatorState.motor thrusterInit)).2).getCommand
        = stdClamp 150 (IActuatorState.motor thrusterInit).minOf (IActuatorState.motor thrusterInit).maxOf
    ∧ stdClamp 150 (IActuatorState.motor thrusterInit).minOf (IActuatorState.motor thrusterInit).maxOf = 100 :=
  ⟨rfl, rfl, actuator_setCommand_clamp_enabled (IActuatorState.motor thrusterInit) 150 rfl rfl,
    by norm_num [thrusterInit, mkThrusterMotor, mkMotorController, MotorController.init,
      IActuatorState.minOf, IActuatorState.maxOf, stdClamp]⟩

/-- C4: evaluation of the safety engine at the failing input.  The limit's
accessor fails in cycle 0, and `SafetyMonitor::update` — which has no handler
— lets the failure escape with `systemSafe_` already assigned `true` and the
registered actuator's command untouched at 50: the missing reading is *not*
treated as a violation and no interlock fires. -/
theorem safety_sample_failure_not_failsafe :
    SafetyMonitorE.update 0 mC4 = Except.error mC4
    ∧ mC4.systemSafe = true
    ∧ mC4.controlledActuators.map IActuatorState.getCommand = [50] :=
  ⟨rfl, rfl, rfl⟩

/-- C5 counterexample: `addLimit` with `min = 5 > 2 = max` still registers the
check (the limit list grows to length 1 instead of staying unchanged), and a
second `addLimit` under the already-registered name `"L"` also succeeds. -/
theorem addLimit_accepts_invalid_range :
    (2 : ℚ) < 5
    ∧ (SafetyMonitor.addLimit "L" (fun _ => 0) 5 2 mkSafetyMonitor).limits.length = 1
    ∧ (SafetyMonitor.addLimit "L" (fun _ => 0) 0 1
        (SafetyMonitor.addLimit "L" (fun _ => 0) 5 2 mkSafetyMonitor)).limits.length = 2 :=
  ⟨by norm_num, rfl, rfl⟩

/-- C5 (amended): `addLimit(name, sample, min, max)` performs no validation at
all: it unconditionally appends the new check (with `active = false`) to the
registered limits, accepting duplicate names and `min > max` alike; no
`ConfigError` exists in the code. -/
theorem addLimit_appends_unconditionally (m : SafetyMonitor) (name : String)
    (getValue : ℕ → ℚ) (minVal maxVal : ℚ) :
    (SafetyMonitor.addLimit name getValue minVal maxVal m).limits
      = m.limits ++ [⟨name, getValue, minVal, maxVal, false⟩] := rfl

/-- C9: evaluation at the failing input.  With one pressure sensor (history
buffer `[0, 0]` from tick 1's two reads) and the raw reading now 12, tick 2's
sensor-update-step read returns `(0+0+12)/3 = 4`, but `writeTelemetrySnapshot`
re-reads the sensor and records `(0+0+12+12)/4 = 6 ≠ 4`: the published value
is a fresh re-read that differs from the value read during the same tick. -/
theorem telemetry_snapshot_reread_differs :
    (controlLoopSensorRead sC9d).1 = 4
    ∧ (telemetrySnapshotSensorRead (controlLoopSensorRead sC9d).2).1 = 6
    ∧ (telemetrySnapshotSensorRead (controlLoopSensorRead sC9d).2).1
        ≠ (controlLoopSensorRead sC9d).1 := by
  refine ⟨?_, ?_, ?_⟩ <;>
  · simp only [sC9d, sC9c, sC9b, sC9a, controlLoopSensorRead, telemetrySnapshotSensorRead,
      PressureSensor.readValue, mkPressureSensor, nextBuffer]
    norm_num

/-- C2 counterexample: `eC2` is `ONLINE` with `lastCommunication = 0`; at
`now = 5.001 s` the elapsed time exceeds 5 seconds, yet `ECU::update` leaves
the status `ONLINE` and the error count unchanged, because
`duration_cast<seconds>` truncates 5.001 to 5 and `5 > 5` fails. -/
theorem ecu_watchdog_5001ms_no_transition :
    eC2.status = ECUStatus.ONLINE
    ∧ (5 : ℚ) < 5001/1000 - eC2.lastCommunication
    ∧ (ECU.update (5001/1000) eC2).2.status = ECUStatus.ONLINE
    ∧ (ECU.update (5001/1000) eC2).2.communicationErrors = eC2.communicationErrors := by
  refine ⟨rfl, by norm_num [eC2, mkECU, ECU.init], ?_, ?_⟩ <;>
  · simp only [ECU.update, ECU.updateHealthMetrics, eC2, mkECU, ECU.init]
    norm_num [ratTrunc]

/-- C2 (amended): `ECU::update` compares *whole seconds*: an `ONLINE` ECU
transitions to `DEGRADED` (incrementing `commErrorCount`) exactly when the
elapsed time truncated to seconds exceeds 5, i.e. when at least 6 seconds have
passed.  A tick at `t0 + 5.001 s` after `observeCommunication(t0)` therefore
leaves the status `ONLINE`; a tick at `t0 + 6.001 s` transitions to
`DEGRADED`; a subsequent `observeCommunication` followed by a tick returns the
status to `ONLINE`. -/
theorem ecu_watchdog_truncated_seconds :
    (∀ (e : ECU) (now : ℚ), e.status = ECUStatus.ONLINE →
        5 < ratTrunc (now - e.lastCommunication) →
        (ECU.update now e).2.status = ECUStatus.DEGRADED
        ∧ (ECU.update now e).2.communicationErrors = e.communicationErrors + 1)
    ∧ (∀ (e : ECU) (now : ℚ), ratTrunc (now - e.lastCommunication) ≤ 5 →
        (ECU.update now e).2.status = e.status
        ∧ (ECU.update now e).2.communicationErrors = e.communicationErrors)
    ∧ (∀ (e : ECU) (t0 : ℚ), e.status = ECUStatus.ONLINE →
        (ECU.update (t0 + 5001/1000) (ECU.updateCommunicationTimestamp t0 e)).2.status
          = ECUStatus.ONLINE)
    ∧ (∀ (e : ECU) (t0 : ℚ), e.status = ECUStatus.ONLINE →
        (ECU.update (t0 + 6001/1000) (ECU.updateCommunicationTimestamp t0 e)).2.status
          = ECUStatus.DEGRADED
        ∧ (ECU.update (t0 + 6001/1000) (ECU.updateCommunicationTimestamp t0 e)).2.communicationErrors
          = e.communicationErrors + 1)
    ∧ (∀ (e : ECU) (t1 : ℚ), e.status = ECUStatus.DEGRADED →
        (ECU.update t1 (ECU.updateCommunicationTimestamp t1 e)).2.status = ECUStatus.ONLINE) := by
  refine ⟨?_, ?_, ?_, ?_, ?_⟩
  · intro e now hs ht
    constructor <;> simp [ECU.update, ECU.updateHealthMetrics, hs, ht]
  · intro e now ht
    have ht' : ¬ 5 < ratTrunc (now - e.lastCommunication) := not_lt.mpr ht
    constructor <;> simp [ECU.update, ECU.updateHealthMetrics, ht']
  · intro e t0 hs
    have hcomm : ECU.updateCommunicationTimestamp t0 e = { e with lastCommunication := t0 } := by
      simp [ECU.updateCommunicationTimestamp, hs]
    have helapsed : (t0 + 5001/1000 : ℚ) - t0 = 5001/1000 := by ring
    have htr : ratTrunc ((5001 : ℚ)/1000) = 5 := by unfold ratTrunc; norm_num
    simp [hcomm, ECU.update, ECU.updateHealthMetrics, helapsed, htr, hs]
  · intro e t0 hs
    have hcomm : ECU.updateCommunicationTimestamp t0 e = { e with lastCommunication := t0 } := by
      simp [ECU.updateCommunicationTimestamp, hs]
    have helapsed : (t0 + 6001/1000 : ℚ) - t0 = 6001/1000 := by ring
    have htr : ratTrunc ((6001 : ℚ)/1000) = 6 := by unfold ratTrunc; norm_num
    constructor <;> simp [hcomm, ECU.update, ECU.updateHealthMetrics, helapsed, htr, hs]
  · intro e t1 hs
    have hcomm : ECU.updateCommunicationTimestamp t1 e
        = { e with lastCommunication := t1, status := ECUStatus.ONLINE } := by
      simp [ECU.updateCommunicationTimestamp, hs]
    have htr : ratTrunc (0 : ℚ) = 0 := by unfold ratTrunc; norm_num
    simp [hcomm, ECU.update, ECU.updateHealthMetrics, sub_self, htr]

/-- Witness for C2: the five cases of the amended watchdog law evaluated on
`ECU02` initialized at `t = 0` (ticks at 7 s, 5.001 s, `t0 = 0` + 5.001 s /
6.001 s, and recovery from `DEGRADED` at `t1 = 1`). -/
theorem ecu_watchdog_truncated_seconds_witness :
    ((ECU.update 7 eC2).2.status = ECUStatus.DEGRADED
      ∧ (ECU.update 7 eC2).2.communicationErrors = eC2.communicationErrors + 1)
    ∧ ((ECU.update (5001/1000) eC2).2.status = eC2.status
      ∧ (ECU.update (5001/1000) eC2).2.communicationErrors = eC2.communicationErrors)
    ∧ (ECU.update (0 + 5001/1000) (ECU.updateCommunicationTimestamp 0 eC2)).2.status
        = ECUStatus.ONLINE
    ∧ ((ECU.update (0 + 6001/1000) (ECU.updateCommunicationTimestamp 0 eC2)).2.status
        = ECUStatus.DEGRADED
      ∧ (ECU.update (0 + 6001/1000) (ECU.updateCommunicationTimestamp 0 eC2)).2.communicationErrors
        = eC2.communicationErrors + 1)
    ∧ (ECU.update 1 (ECU.updateCommunicationTimestamp 1
        ({ eC2 with status := ECUStatus.DEGRADED }))).2.status = ECUStatus.ONLINE :=
  ⟨ecu_watchdog_truncated_seconds.1 eC2 7 rfl
      (by norm_num [eC2, mkECU, ECU.init, ratTrunc]),
   ecu_watchdog_truncated_seconds.2.1 eC2 (5001/1000)
      (by norm_num [eC2, mkECU, ECU.init, ratTrunc]),
   ecu_watchdog_truncated_seconds.2.2.1 eC2 0 rfl,
   ecu_watchdog_truncated_seconds.2.2.2.1 eC2 0 rfl,
   ecu_watchdog_truncated_seconds.2.2.2.2 { eC2 with status := ECUStatus.DEGRADED } 1 rfl⟩

/-- After `ecus_[k] = v`, looking up `k` finds exactly `v`. -/
theorem find_insertAssoc (k : String) (v : ECU) :
    ∀ l, List.find? (fun p => decide (p.1 = k)) (insertAssoc k v l) = some (k, v) := by
  intro l
  induction l with
  | nil => simp [insertAssoc]
  | cons p rest ih =>
    by_cases h : p.1 = k
    · simp [insertAssoc, h]
    · simp [insertAssoc, h, ih]

/-- `ecus_[k] = v` on a key that is already present replaces in place: the
collection size does not change. -/
theorem insertAssoc_length_of_mem (k : String) (v : ECU) :
    ∀ l, (∃ p ∈ l, p.1 = k) → (insertAssoc k v l).length = l.length := by
  intro l
  induction l with
  | nil => rintro ⟨p, hp, _⟩; cases hp
  | cons q rest ih =>
    rintro ⟨p, hp, hpk⟩
    by_cases h : q.1 = k
    · simp [insertAssoc, h]
    · rcases List.mem_cons.mp hp with rfl | hmem
      · exact absurd hpk h
      · simp [insertAssoc, h, ih ⟨p, hmem, hpk⟩]

/-- C6 counterexample: adding `eBeta` whose id `ECU01` is already registered
(for `eAlpha`) does not fail — it silently replaces the stored ECU: the lookup
returns `eBeta` (≠ `eAlpha`) and the collection still has one entry. -/
theorem addECU_duplicate_replaces :
    ECUManager.getECU "ECU01" mC6 = some eBeta
    ∧ eBeta ≠ eAlpha
    ∧ mC6.ecus.length = 1 := by
  refine ⟨rfl, ?_, rfl⟩
  intro h
  have hn := congrArg ECU.name h
  rw [show eBeta.name = "Beta" from rfl, show eAlpha.name = "Alpha" from rfl] at hn
  exact absurd hn (by decide)

/-- C6 (amended): `addECU(ecu)` inserts keyed by `ecu->getECUID()`; when an
ECU with the same id is already registered, it silently *replaces* the stored
ECU (the collection size is unchanged) — no `ConfigError` is raised. -/
theorem addECU_insert_or_replace (m : ECUManager) (e : ECU) :
    ECUManager.getECU e.ecuID (ECUManager.addECU e m) = some e
    ∧ ((∃ p ∈ m.ecus, p.1 = e.ecuID) →
        (ECUManager.addECU e m).ecus.length = m.ecus.length) := by
  constructor
  · simp [ECUManager.getECU, ECUManager.addECU, find_insertAssoc]
  · intro h
    simp [ECUManager.addECU, insertAssoc_length_of_mem _ _ _ h]

/-- Witness for C6: re-adding id `ECU01` (as `eBeta`) over the supervisor that
already holds `eAlpha` keeps the collection at one entry and makes the lookup
return `eBeta`. -/
theorem addECU_insert_or_replace_witness :
    (∃ p ∈ (ECUManager.addECU eAlpha (mkECUManager "TBM ROV Control System")).ecus,
        p.1 = eBeta.ecuID)
    ∧ ECUManager.getECU eBeta.ecuID mC6 = some eBeta
    ∧ mC6.ecus.length
        = (ECUManager.addECU eAlpha (mkECUManager "TBM ROV Control System")).ecus.length := by
  have h : ∃ p ∈ (ECUManager.addECU eAlpha (mkECUManager "TBM ROV Control System")).ecus,
      p.1 = eBeta.ecuID :=
    ⟨("ECU01", eAlpha), by simp [ECUManager.addECU, mkECUManager, insertAssoc, eAlpha, mkECU], rfl⟩
  exact ⟨h,
    (addECU_insert_or_replace (ECUManager.addECU eAlpha (mkECUManager "TBM ROV Control System")) eBeta).1,
    (addECU_insert_or_replace (ECUManager.addECU eAlpha (mkECUManager "TBM ROV Control System")) eBeta).2 h⟩

/-- C7 counterexample: after `initialize()` of a one-ECU supervisor the cached
flag is `true`; `addECU` of a second, still-`OFFLINE` ECU does not recompute
it, so `areAllECUsOnline()` stays `true` although a registered ECU's status
differs from `ONLINE` — the claimed equivalence fails. -/
theorem allOnline_stale_after_addECU :
    ECUManager.areAllECUsOnline mC7 = true
    ∧ ∃ p ∈ mC7.ecus, p.2.status ≠ ECUStatus.ONLINE := by
  refine ⟨rfl, ⟨("ECU02", mkECU "ECU02" "Teensy 4.0 Sensor Node" ECUType.SENSOR_NODE 0), ?_, by simp [mkECU]⟩⟩
  simp [mC7, mOn, ECUManager.addECU, ECUManager.init, ECUManager.updateSystemStatus,
    mkECUManager, insertAssoc, eAlpha, mkECU, ECU.init]

/-- C7 (amended): `areAllECUsOnline()` returns a *cached* flag.  Immediately
after `update(now)` the flag equals the conjunction over all members of
`status == ONLINE` (vacuously `true` for an empty collection), but `addECU`
leaves the cached flag untouched (it can be stale until the next
`initialize`/`update`), and the constructor starts it at `false`. -/
theorem allOnline_recomputed_on_update :
    (∀ (m : ECUManager) (now : ℚ),
        ECUManager.areAllECUsOnline (ECUManager.update now m).2
          = (ECUManager.update now m).2.ecus.all (fun p => decide (p.2.status = ECUStatus.ONLINE)))
    ∧ (∀ (m : ECUManager) (e : ECU),
        ECUManager.areAllECUsOnline (ECUManager.addECU e m) = ECUManager.areAllECUsOnline m)
    ∧ (∀ s, ECUManager.areAllECUsOnline (mkECUManager s) = false) :=
  ⟨fun _ _ => rfl, fun _ _ => rfl, fun _ => rfl⟩

/-- When every limit in the list is in range, the evaluation loop clears
every `isActive` flag, reports safe with no violation, and leaves the
actuators untouched. -/
theorem evalLimits_all_safe (t : ℕ) (acts : List IActuatorState) :
    ∀ ls : List SafetyLimit, (∀ l ∈ ls, ¬ l.violated t) →
      evalLimits t acts ls = ⟨ls.map (SafetyLimit.setActive false), true, none, acts⟩ := by
  intro ls h
  induction ls with
  | nil => rfl
  | cons l rest ih =>
    have hl : ¬ l.violated t := h l (by simp)
    have hl' : ¬ (l.getValue t < l.minValue ∨ l.maxValue < l.getValue t) := hl
    have h' : ∀ l' ∈ rest, ¬ l'.violated t := fun l' hm => h l' (by simp [hm])
    simp only [evalLimits]
    rw [if_neg hl', ih h']
    rfl

/-- When the limits split as `pre ++ l :: post` with every limit of `pre` in
range and `l` violated, the evaluation loop clears the flags of `pre`, marks
`l` active, stops (leaving `post` untouched), reports the violation message
and zeroes every actuator. -/
theorem evalLimits_first_violation (t : ℕ) (acts : List IActuatorState) :
    ∀ (pre : List SafetyLimit) (l : SafetyLimit) (post : List SafetyLimit),
      (∀ l' ∈ pre, ¬ l'.violated t) → l.violated t →
      evalLimits t acts (pre ++ l :: post)
        = ⟨pre.map (SafetyLimit.setActive false) ++ { l with isActive := true } :: post,
           false, some (violationMessage l.name (l.getValue t)), zeroAll acts⟩ := by
  intro pre
  induction pre with
  | nil =>
    intro l post _ hl
    have hl' : l.getValue t < l.minValue ∨ l.maxValue < l.getValue t := hl
    simp only [List.nil_append, List.map_nil, evalLimits]
    rw [if_pos hl']
  | cons p pre' ih =>
    intro l post hpre hl
    have hp : ¬ p.violated t := hpre p (by simp)
    have hp' : ¬ (p.getValue t < p.minValue ∨ p.maxValue < p.getValue t) := hp
    have hpre' : ∀ l' ∈ pre', ¬ l'.violated t := fun l' h' => hpre l' (by simp [h'])
    simp only [List.cons_append, List.map_cons, evalLimits, List.append_eq]
    rw [if_neg hp', ih l post hpre' hl]
    rfl

/-- A safe evaluation produces no violation message. -/
theorem evalLimits_safe_violation_none (t : ℕ) (acts : List IActuatorState) :
    ∀ ls : List SafetyLimit,
      (evalLimits t acts ls).safe = true → (evalLimits t acts ls).violation = none := by
  intro ls
  induction ls with
  | nil => intro; rfl
  | cons l rest ih =>
    by_cases hc : l.getValue t < l.minValue ∨ l.maxValue < l.getValue t
    · simp [evalLimits, hc]
    · simpa [evalLimits, hc] using ih

/-- C1: per-cycle evaluation of the safety engine.  Limits are inspected in
registration order; at the first violated limit (sampled value strictly below
its min or strictly above its max) the system is marked unsafe,
`lastViolation` becomes `"{name} out of range: {value}"`, that limit's
`active` flag is set, every registered actuator is commanded to zero
(`setCommand(0.0)` is issued to each), and no later limit is inspected — the
uninspected limits keep their previous `active` flags.  If every inspected
limit is in range, every limit's `active` flag is cleared and the system is
marked safe, with the actuators untouched. -/
theorem safety_update_first_violation_wins (m : SafetyMonitor) (t : ℕ) :
    (∀ (pre : List SafetyLimit) (l : SafetyLimit) (post : List SafetyLimit),
        m.limits = pre ++ l :: post →
        (∀ l' ∈ pre, ¬ l'.violated t) → l.violated t →
          (SafetyMonitor.update t m).systemSafe = false
          ∧ (SafetyMonitor.update t m).lastViolation = violationMessage l.name (l.getValue t)
          ∧ (SafetyMonitor.update t m).limits
              = pre.map (SafetyLimit.setActive false) ++ { l with isActive := true } :: post
          ∧ (SafetyMonitor.update t m).controlledActuators = zeroAll m.controlledActuators)
    ∧ ((∀ l ∈ m.limits, ¬ l.violated t) →
          (SafetyMonitor.update t m).systemSafe = true
          ∧ (SafetyMonitor.update t m).limits = m.limits.map (SafetyLimit.setActive false)
          ∧ (SafetyMonitor.update t m).controlledActuators = m.controlledActuators) := by
  constructor
  · intro pre l post heq hpre hl
    simp [SafetyMonitor.update, heq,
      evalLimits_first_violation t m.controlledActuators pre l post hpre hl]
  · intro h
    simp [SafetyMonitor.update, evalLimits_all_safe t m.controlledActuators m.limits h]

/-- Witness for C1 on `mC1` (limits `[limW1, limW2, limW3]`, the second one
violated at cycle 0; one enabled thruster commanded to 30 and one valve at
target 70): the cycle marks the system unsafe, records the message for
`limW2`, clears `limW1`'s stale flag, sets `limW2`'s flag, leaves `limW3`
untouched and zeroes both actuators. -/
theorem safety_update_first_violation_wins_witness :
    limW2.violated 0
    ∧ (SafetyMonitor.update 0 mC1).systemSafe = false
    ∧ (SafetyMonitor.update 0 mC1).lastViolation = violationMessage limW2.name (limW2.getValue 0)
    ∧ (SafetyMonitor.update 0 mC1).limits
        = [limW1].map (SafetyLimit.setActive false) ++ { limW2 with isActive := true } :: [limW3]
    ∧ (SafetyMonitor.update 0 mC1).controlledActuators = zeroAll mC1.controlledActuators := by
  have hl : limW2.violated 0 := Or.inr (by norm_num [limW2])
  have hpre : ∀ l' ∈ [limW1], ¬ l'.violated 0 := by
    intro l' h'
    rw [List.mem_singleton] at h'
    subst h'
    norm_num [limW1, SafetyLimit.violated]
  have h := (safety_update_first_violation_wins mC1 0).1 [limW1] limW2 [limW3] rfl hpre hl
  exact ⟨hl, h.1, h.2.1, h.2.2.1, h.2.2.2⟩

/-- C8 counterexample: `mC8`'s limit reads 120 (violated) in cycle 0 and 50
(in range) in cycle 1.  After the recovery cycle the system is safe again,
but `lastViolation` still holds the stale message — `update` never clears it,
so `isSafe() == true` does not imply an empty violation string. -/
theorem lastViolation_nonempty_after_recovery :
    (SafetyMonitor.update 1 (SafetyMonitor.update 0 mC8)).systemSafe = true
    ∧ (SafetyMonitor.update 1 (SafetyMonitor.update 0 mC8)).lastViolation
        = violationMessage "MaxDepth" 120
    ∧ violationMessage "MaxDepth" 120 ≠ "" := by
  refine ⟨rfl, rfl, ?_⟩
  intro h
  have hlen := congrArg String.length h
  have h8 : ("MaxDepth" : String).length = 8 := rfl
  have h15 : (" out of range: " : String).length = 15 := rfl
  simp only [violationMessage, String.length_append, h8, h15, String.length_empty] at hlen
  omega

/-- C8 (amended): `lastViolation` starts empty, and an evaluation cycle that
ends safe leaves it *unchanged* (it is only ever overwritten on a violation,
never cleared).  Hence the violation string is empty while no violation has
yet occurred, but after a violation it persists even once `isSafe()` is true
again. -/
theorem safe_update_preserves_lastViolation :
    mkSafetyMonitor.lastViolation = ""
    ∧ ∀ (m : SafetyMonitor) (t : ℕ),
        (SafetyMonitor.update t m).systemSafe = true →
        (SafetyMonitor.update t m).lastViolation = m.lastViolation := by
  refine ⟨rfl, ?_⟩
  intro m t h
  simp only [SafetyMonitor.update] at h ⊢
  rw [evalLimits_safe_violation_none t m.controlledActuators m.limits h]
  rfl

/-- Witness for C8 on `mW8` (single limit always in range): the cycle ends
safe and the (empty) violation string is preserved. -/
theorem safe_update_preserves_lastViolation_witness :
    (SafetyMonitor.update 0 mW8).systemSafe = true
    ∧ (SafetyMonitor.update 0 mW8).lastViolation = mW8.lastViolation := by
  have hsafe' := evalLimits_all_safe 0 mW8.controlledActuators mW8.limits
    (by
      intro l h'
      rw [show mW8.limits = [⟨"MaxTemp", fun _ => (20 : ℚ), -5, 50, false⟩] from rfl] at h'
      rw [List.mem_singleton] at h'
      subst h'
      norm_num [SafetyLimit.violated])
  have hsafe : (SafetyMonitor.update 0 mW8).systemSafe = true := by
    simp only [SafetyMonitor.update, hsafe']
  exact ⟨hsafe, safe_update_preserves_lastViolation.2 mW8 0 hsafe⟩

/-- `readValue` leaves the raw reading and the calibration offset unchanged,
so `readRepeat` does too. -/
theorem readRepeat_raw_unchanged (n : ℕ) : ∀ s : PressureSensor,
    (PressureSensor.readRepeat n s).currentValue = s.currentValue
    ∧ (PressureSensor.readRepeat n s).calibrationOffset = s.calibrationOffset := by
  induction n with
  | zero => intro s; exact ⟨rfl, rfl⟩
  | succ n ih => intro s; exact ⟨(ih (s.readValue).2).1, (ih (s.readValue).2).2⟩

/-- `n + 1` reads are `n` reads followed by one read. -/
theorem readRepeat_succ_out (n : ℕ) : ∀ s : PressureSensor,
    PressureSensor.readRepeat (n + 1) s = ((PressureSensor.readRepeat n s).readValue).2 := by
  induction n with
  | zero => intro s; rfl
  | succ n ih => intro s; exact ih (s.readValue).2

/-- The buffer after `n` reads is `iterBuffer` of the sample. -/
theorem readRepeat_historyBuffer (n : ℕ) : ∀ s : PressureSensor,
    (PressureSensor.readRepeat n s).historyBuffer
      = iterBuffer (s.currentValue + s.calibrationOffset) n s.historyBuffer := by
  induction n with
  | zero => intro s; rfl
  | succ n ih => intro s; exact ih (s.readValue).2

/-- Closed form of the buffer iteration: starting from a buffer of at most 10
samples and appending at least enough copies of `v` to reach 10, the result is
the last 10 elements of the original buffer extended by the new samples. -/
theorem iterBuffer_saturate (v : ℚ) : ∀ (n : ℕ) (b : List ℚ),
    b.length ≤ 10 → 10 ≤ b.length + n →
    iterBuffer v n b = (b ++ List.replicate n v).drop (b.length + n - 10) := by
  intro n
  induction n with
  | zero =>
    intro b h1 h2
    have hk : b.length = 10 := le_antisymm h1 (by simpa using h2)
    simp [iterBuffer, hk]
  | succ n ih =>
    intro b h1 h2
    show iterBuffer v n (nextBuffer v b) = _
    by_cases hb : 10 ≤ b.length
    · have hk : b.length = 10 := le_antisymm h1 hb
      have hnext : nextBuffer v b = b.tail ++ [v] := by rw [nextBuffer, if_pos hb]
      have hlen : (nextBuffer v b).length = 10 := by
        rw [hnext]
        simp [List.length_tail, hk]
      rw [ih (nextBuffer v b) (le_of_eq hlen) (by rw [hlen]; omega)]
      rw [hnext]
      have hlen2 : (b.tail ++ [v]).length = 10 := by simp [List.length_tail, hk]
      rw [hlen2]
      obtain ⟨hd, tl, rfl⟩ : ∃ hd tl, b = hd :: tl := by
        cases hbe : b with
        | nil => rw [hbe] at hk; simp at hk
        | cons a l => exact ⟨a, l, rfl⟩
      have htl : tl.length = 9 := by simpa using hk
      simp only [List.tail_cons]
      rw [List.append_assoc, List.singleton_append, ← List.replicate_succ]
      simp only [List.cons_append, List.length_cons, htl]
      have e1 : 10 + n - 10 = n := by omega
      have e2 : 9 + 1 + (n + 1) - 10 = n + 1 := by omega
      rw [e1, e2, List.drop_succ_cons]
    · have hnext : nextBuffer v b = b ++ [v] := by rw [nextBuffer, if_neg hb]
      have hlen : (nextBuffer v b).length = b.length + 1 := by rw [hnext]; simp
      rw [ih (nextBuffer v b) (by rw [hlen]; omega) (by rw [hlen]; omega)]
      rw [hnext]
      have hlen2 : (b ++ [v]).length = b.length + 1 := by simp
      rw [hlen2]
      rw [List.append_assoc, List.singleton_append, ← List.replicate_succ]
      have e : b.length + 1 + n - 10 = b.length + (n + 1) - 10 := by omega
      rw [e]

/-- After exactly 10 consecutive reads of the same sample the whole buffer
holds that sample. -/
theorem iterBuffer_ten (v : ℚ) (b : List ℚ) (h : b.length ≤ 10) :
    iterBuffer v 10 b = List.replicate 10 v := by
  rw [iterBuffer_saturate v 10 b h (by omega)]
  have e : b.length + 10 - 10 = b.length := by omega
  rw [e, List.drop_left]

/-- C10: `PressureSensor::readValue` (i) appends
`currentValue + calibrationOffset` to the history buffer, dropping the oldest
entry first once the buffer holds 10, and returns the arithmetic mean of the
resulting buffer, (ii) keeps the buffer at no more than 10 entries, (iii) is
not idempotent — there is a state from which two consecutive calls (with the
underlying `currentValue` unchanged) return different results — and (iv) once
the buffer is saturated by 10 consecutive calls with the value unchanged, the
buffer holds 10 copies of the sample and the returned value equals
`currentValue + calibrationOffset` exactly. -/
theorem pressure_readValue_moving_average :
    (∀ s : PressureSensor,
        ((s.readValue).2.historyBuffer
          = (if 10 ≤ s.historyBuffer.length then s.historyBuffer.tail else s.historyBuffer)
            ++ [s.currentValue + s.calibrationOffset])
        ∧ (s.readValue).1
            = (s.readValue).2.historyBuffer.sum / ((s.readValue).2.historyBuffer.length : ℚ))
    ∧ (∀ s : PressureSensor, s.historyBuffer.length ≤ 10 →
        (s.readValue).2.historyBuffer.length ≤ 10)
    ∧ (∃ s : PressureSensor, (s.readValue).1 ≠ (((s.readValue).2).readValue).1)
    ∧ (∀ s : PressureSensor, s.historyBuffer.length ≤ 10 →
        (PressureSensor.readRepeat 10 s).historyBuffer
          = List.replicate 10 (s.currentValue + s.calibrationOffset)
        ∧ ((PressureSensor.readRepeat 9 s).readValue).1
          = s.currentValue + s.calibrationOffset) := by
  refine ⟨fun s => ⟨rfl, rfl⟩, ?_, ?_, ?_⟩
  · intro s h
    simp only [PressureSensor.readValue, nextBuffer]
    by_cases hb : 10 ≤ s.historyBuffer.length
    · rw [if_pos hb]
      simp only [List.length_append, List.length_tail, List.length_singleton]
      omega
    · rw [if_neg hb]
      simp only [List.length_append, List.length_singleton]
      omega
  · refine ⟨⟨"P", 12, 0, true, [0]⟩, ?_⟩
    simp only [PressureSensor.readValue, nextBuffer]
    norm_num
  · intro s h
    have hbuf : (PressureSensor.readRepeat 10 s).historyBuffer
        = List.replicate 10 (s.currentValue + s.calibrationOffset) := by
      rw [readRepeat_historyBuffer]
      exact iterBuffer_ten _ _ h
    refine ⟨hbuf, ?_⟩
    have hmean : ((PressureSensor.readRepeat 9 s).readValue).1
        = ((PressureSensor.readRepeat 9 s).readValue).2.historyBuffer.sum
          / (((PressureSensor.readRepeat 9 s).readValue).2.historyBuffer.length : ℚ) := rfl
    rw [hmean, ← readRepeat_succ_out 9 s, hbuf]
    rw [List.sum_replicate, List.length_replicate, nsmul_eq_mul]
    norm_num

/-- Witness for C10 on the freshly constructed `DepthSensor` (empty buffer):
it satisfies the length invariant, saturates to 10 copies of the sample after
10 reads, and the 10th read returns the exact sample. -/
theorem pressure_readValue_moving_average_witness :
    sW10.historyBuffer.length ≤ 10
    ∧ (PressureSensor.readRepeat 10 sW10).historyBuffer
        = List.replicate 10 (sW10.currentValue + sW10.calibrationOffset)
    ∧ ((PressureSensor.readRepeat 9 sW10).readValue).1
        = sW10.currentValue + sW10.calibrationOffset
    ∧ (sW10.readValue).2.historyBuffer.length ≤ 10 := by
  have h : sW10.historyBuffer.length ≤ 10 := by simp [sW10, mkPressureSensor]
  exact ⟨h, (pressure_readValue_moving_average.2.2.2 sW10 h).1,
    (pressure_readValue_moving_average.2.2.2 sW10 h).2,
    pressure_readValue_moving_average.2.1 sW10 h⟩
